import Mathlib

/-!
Shallow embedding of the chat server in `src/server.py` (with the data model
of `src/models.py` and the constants of `src/settings.py`).

Modelling conventions, used throughout:
* Python `User` / `Chat` / `Message` objects are mutable and shared by
  reference; here every `User` lives once in `ServerState.users` and is
  referenced by its index (`Nat`), so a mutation of a user is a `List.set`
  on that heap and is seen through every reference, as in the source.
* Python `dict` is an insertion-ordered map with unique keys: modelled as an
  association list, `dictGet` looking up the first binding and `dictInsert`
  replacing in place or appending at the end.
* `datetime.now()` is modelled by an explicit timestamp argument `t : Nat`
  to the operations that create a `Message`; `strftime` becomes an opaque
  rendering of that number.  The `uuid4` message id is never read by any
  server logic and is omitted.
* A raised Python exception is an `Except.error` carrying the exception kind
  and the server state at the raise point.
-/

namespace ChatServer

/-- Kinds of Python exceptions the server can raise (unhandled). -/
inductive PyError where
  | typeError
  | valueError
  | keyError
  | indexError
  | attributeError
deriving DecidableEq, Repr

/-- JSON values as produced by the handlers and fed to `json.dumps`. -/
inductive Js where
  | null : Js
  | str (s : String) : Js
  | arr (xs : List Js) : Js
  | obj (fields : List (String × Js)) : Js

mutual

/-- `json.dumps` on the payloads the server builds (string escaping is not
modelled; no payload the server emits needs it for the properties below). -/
def jsDumps : Js → String
  | .null => "null"
  | .str s => "\"" ++ s ++ "\""
  | .arr xs => "[" ++ jsDumpsArr xs ++ "]"
  | .obj fs => "\x7b" ++ jsDumpsObj fs ++ "\x7d"

/-- Comma-separated rendering of a JSON array body. -/
def jsDumpsArr : List Js → String
  | [] => ""
  | [x] => jsDumps x
  | x :: y :: t => jsDumps x ++ ", " ++ jsDumpsArr (y :: t)

/-- Comma-separated rendering of a JSON object body. -/
def jsDumpsObj : List (String × Js) → String
  | [] => ""
  | [(k, v)] => "\"" ++ k ++ "\": " ++ jsDumps v
  | (k, v) :: y :: t => "\"" ++ k ++ "\": " ++ jsDumps v ++ ", " ++ jsDumpsObj (y :: t)

end

/-- Python `dict.get`: first binding for the key, if any. -/
def dictGet {α : Type} : List (String × α) → String → Option α
  | [], _ => none
  | (k, v) :: rest, key => if k == key then some v else dictGet rest key

/-- Python `d[k] = v`: replace the binding in place, else append at the end. -/
def dictInsert {α : Type} : List (String × α) → String → α → List (String × α)
  | [], key, v => [(key, v)]
  | (k, w) :: rest, key, v =>
      if k == key then (key, v) :: rest else (k, w) :: dictInsert rest key v

/-- In-place update of the element at an index (no-op when out of range),
modelling mutation of an object reached through a list. -/
def listModify {α : Type} : List α → Nat → (α → α) → List α
  | [], _, _ => []
  | a :: rest, 0, f => f a :: rest
  | a :: rest, n + 1, f => a :: listModify rest n f

/-- settings.MAIN_CHAT_NAME (default). -/
def MAIN_CHAT_NAME : String := "main"

/-- settings.MSG_BATCH_SIZE (default). -/
def MSG_BATCH_SIZE : Nat := 20

/-- src/models.py `Message`.  `user` is the heap index of the author; the
random `id` field is omitted (no server logic reads it); `created_at` is the
timestamp supplied at creation. -/
structure Message where
  user : Nat
  text : Option String
  created_at : Nat
deriving DecidableEq, Repr

/-- src/models.py `User`: login, password and the per-chat read cursor
`last_chat_message_map` (a dict from chat name to optional message). -/
structure User where
  login : String
  password : String
  last_chat_message_map : List (String × Option Message)
deriving DecidableEq, Repr

/-- src/models.py `Chat`: name, member references and the message sequence. -/
structure Chat where
  name : String
  members : List Nat
  messages : List Message
deriving DecidableEq, Repr

/-- The mutable state of a `Server` instance: the user heap, the
`connected_users` token dict (values are heap indices), the chat list and
the message batch size. -/
structure ServerState where
  users : List User
  connected_users : List (String × Nat)
  chats : List Chat
  msg_batch_size : Nat
deriving DecidableEq, Repr

/-- src/models.py `RequestSchema` as the handlers consume it: the headers
dict always has the single key "token" (set from the Authorization header),
read back via `headers.get("token")`, so it is modelled by that optional
value directly; `data` is the decoded JSON body; `params` the path params. -/
structure RequestSchema where
  token : Option String
  data : List (String × String)
  params : List (String × String)

/-- Result of one handler call: the response string and the state after it,
or the exception raised together with the state at the raise point. -/
def SResult : Type := Except (PyError × ServerState) (ServerState × String)

/-- The server state an operation leaves behind, successful or not. -/
def outState : SResult → ServerState
  | .error p => p.2
  | .ok p => p.1

/-- The response string of a successful call, if any. -/
def respOf : SResult → Option String
  | .error _ => none
  | .ok p => some p.2

/-- Whether a call completed without raising. -/
def SResult.isOk : SResult → Bool
  | .error _ => false
  | .ok _ => true

/-- `Server.__init__`: no users, no sessions, one chat named
settings.MAIN_CHAT_NAME, with the given batch size. -/
def initServerWith (batch : Nat) : ServerState :=
  { users := [], connected_users := [],
    chats := [{ name := MAIN_CHAT_NAME, members := [], messages := [] }],
    msg_batch_size := batch }

/-- A fresh server with the default batch size. -/
def initServer : ServerState := initServerWith MSG_BATCH_SIZE

/-- `Server.status_code_map`. -/
def status_code_map (code : Nat) : Option String :=
  if code == 200 then some "200 OK"
  else if code == 400 then some "400 Bad Request"
  else if code == 401 then some "401 Unauthorized"
  else if code == 404 then some "404 Not Found"
  else none

/-- `Server._parse_response`: status line (an unknown code renders as the
Python string "None"), fixed Content-Type header, blank line, JSON body. -/
def parse_response (code : Nat) (data : Js) : String :=
  "HTTP/1.1 " ++ (match status_code_map code with | some r => r | none => "None")
    ++ "\r\n" ++ "Content-Type: application/json; charset=utf-8\r\n" ++ "\r\n"
    ++ jsDumps data

/-- `hashlib.sha256(...).hexdigest()`: an opaque deterministic function of
its input; no server logic inspects the digest, so it is represented by the
input string itself. -/
def sha256_hexdigest (sv : String) : String := sv

/-- `Server.get_data_hash`: hash of login concatenated with password. -/
def get_data_hash (user : User) : String :=
  sha256_hexdigest (user.login ++ user.password)

/-- `self.connected_users.get(user_token)`: Python returns the stored User
object (or None).  Here the stored value is a heap index, so the lookup
traverses `connected_users` and then `users`; in every state the server
itself builds the stored indices are in range, making this the same lookup. -/
def resolveUser (s : ServerState) (token? : Option String) : Option (Nat × User) :=
  match token? with
  | none => none
  | some t =>
    match dictGet s.connected_users t with
    | none => none
    | some uid => (s.users.get? uid).map (fun u => (uid, u))

/-- `User(**request.data)`: requires the kwargs to be exactly login and
password (anything else is a TypeError, rendered as `none` here); the read
cursor dict starts as a singleton mapping the main chat name to None. -/
def userFromKwargs (data : List (String × String)) : Option User :=
  if data.all (fun p => p.1 == "login" || p.1 == "password") then
    match dictGet data "login", dictGet data "password" with
    | some l, some pw =>
        some { login := l, password := pw,
               last_chat_message_map := [(MAIN_CHAT_NAME, none)] }
    | _, _ => none
  else none

/-- Placeholder author for a dangling heap index; never hit on states the
server builds (every stored index is in range). -/
def noUser : User := { login := "", password := "", last_chat_message_map := [] }

/-- `datetime.strftime("%Y-%m-%d %H:%M:%S")` on the abstract timestamp:
modelled as an opaque rendering of the number. -/
def strftime (t : Nat) : String := toString t

/-- The projection of one message in the `Server.messages` response body. -/
def message_record (users : List User) (m : Message) : Js :=
  Js.obj [("user", Js.str ((users.getD m.user noUser).login)),
          ("text", match m.text with | some sv => Js.str sv | none => Js.null),
          ("created_at", Js.str (strftime m.created_at))]

/-- The `response_data` object of `Server.messages`. -/
def messagesPayload (users : List User) (msgs : List Message) : Js :=
  Js.obj [("messages", Js.arr (msgs.map (message_record users)))]

/-- The chat name computed in `Server._get_or_create_chat`: the member
logins, sorted (a stable two-element sort on the login key), joined by "+". -/
def pairChatName (sender receiver : User) : String :=
  String.intercalate "+"
    ((if receiver.login < sender.login then [receiver, sender] else [sender, receiver]).map
      User.login)

/-- Position of the first chat carrying a name, if any: the index of
`[chat for chat in self.chats if chat.name == chat_name][0]`, so that a
mutation of that chat object is a mutation at this index. -/
def firstIdxWithName : List Chat → String → Option Nat
  | [], _ => none
  | c :: rest, n =>
    if c.name == n then some 0 else (firstIdxWithName rest n).map (· + 1)

/-- `Server._get_or_create_chat`: resolve the canonical pairwise chat by
name, else append a fresh chat (members in call order) and initialize both
members' read cursors for it to None.  Returns the new state and the index
of the chat in `chats` (the object Python returns). -/
def get_or_create_chat (s : ServerState) (senderUid : Nat) (senderUser : User)
    (receiverUid : Nat) (receiverUser : User) : ServerState × Nat :=
  let chatName := pairChatName senderUser receiverUser
  match firstIdxWithName s.chats chatName with
  | some i => (s, i)
  | none =>
    let newChat : Chat := { name := chatName, members := [senderUid, receiverUid],
                            messages := [] }
    let users₁ := listModify s.users senderUid
      (fun u => { u with last_chat_message_map :=
                    dictInsert u.last_chat_message_map chatName none })
    let users₂ := listModify users₁ receiverUid
      (fun u => { u with last_chat_message_map :=
                    dictInsert u.last_chat_message_map chatName none })
    ({ s with chats := s.chats ++ [newChat], users := users₂ }, s.chats.length)

/-- `Server.send_to` (timestamp `t` models `datetime.now()` for the new
message). -/
def send_to (s : ServerState) (req : RequestSchema) (t : Nat) : SResult :=
  match resolveUser s req.token with
  | some suser =>
    let target? := dictGet req.data "user_login"
    -- the list comprehension over connected_users.values() keeping logins
    -- equal to request.data.get("user_login"); users[0] is its head
    match (s.connected_users.filterMap
        (fun p => (s.users.get? p.2).map (fun u => (p.2, u)))).find?
        (fun q => target? == some q.2.login) with
    | none => .ok (s, parse_response 404 (Js.obj [("error", Js.str "User not found")]))
    | some ruser =>
      let message? := dictGet req.data "message"
      let sc := get_or_create_chat s suser.1 suser.2 ruser.1 ruser.2
      let m : Message := { user := suser.1, text := message?, created_at := t }
      let chats' := listModify sc.1.chats sc.2
        (fun c => { c with messages := c.messages ++ [m] })
      .ok ({ sc.1 with chats := chats' },
           parse_response 200
             (Js.obj [("message",
               match message? with | some sv => Js.str sv | none => Js.null)]))
  | none => .ok (s, parse_response 401 (Js.obj [("error", Js.str "User not found")]))

/-- `Server.send`: append a message to the main chat (`chats[0]`); an
unresolvable token yields 401. -/
def send (s : ServerState) (req : RequestSchema) (t : Nat) : SResult :=
  match resolveUser s req.token with
  | some suser =>
    let message? := dictGet req.data "message"
    match s.chats with
    | [] => .error (.indexError, s)
    | mainChat :: rest =>
      let m : Message := { user := suser.1, text := message?, created_at := t }
      .ok ({ s with chats := { mainChat with messages := mainChat.messages ++ [m] } :: rest },
           parse_response 200
             (Js.obj [("message",
               match message? with | some sv => Js.str sv | none => Js.null)]))
  | none => .ok (s, parse_response 401 (Js.obj [("error", Js.str "User not found")]))

/-- `Server.connect`: if the Authorization token is not a current session
key, build the User from the body kwargs, bind hash(login+password) to it in
`connected_users` (replacing any previous binding of that hash) and append
it to the main chat's members; otherwise echo the presented token. -/
def connect (s : ServerState) (req : RequestSchema) : SResult :=
  match resolveUser s req.token with
  | none =>
    match userFromKwargs req.data with
    | none => .error (.typeError, s)
    | some user =>
      let newUserToken := get_data_hash user
      let uid := s.users.length
      let users' := s.users ++ [user]
      let connected' := dictInsert s.connected_users newUserToken uid
      match s.chats with
      | [] => .error (.indexError, { s with users := users', connected_users := connected' })
      | mainChat :: rest =>
        .ok ({ s with
                users := users',
                connected_users := connected',
                chats := { mainChat with members := mainChat.members ++ [uid] } :: rest },
             parse_response 200 (Js.obj [("token", Js.str newUserToken)]))
  | some _ =>
    .ok (s, parse_response 200 (Js.obj [("token", Js.str (req.token.getD ""))]))

/-- `Server.status`: for each chat having the caller among its member
logins, bind the chat name to the ordered member logins. -/
def status (s : ServerState) (req : RequestSchema) : SResult :=
  match resolveUser s req.token with
  | some suser =>
    let responseData := s.chats.foldl
      (fun acc chat =>
        let memberLogins := chat.members.filterMap
          (fun uid => (s.users.get? uid).map User.login)
        if memberLogins.contains suser.2.login then
          dictInsert acc chat.name (Js.arr (memberLogins.map Js.str))
        else acc) []
    .ok (s, parse_response 200 (Js.obj responseData))
  | none => .ok (s, parse_response 401 (Js.obj [("error", Js.str "User not found")]))

/-- The list comprehension of the cursor-set branch of `Server.messages`:
keep a message when it is strictly newer than the cursor AND its position in
the enumeration of the full message list is below the batch size. -/
def codeSelection (msgs : List Message) (cursor : Message) (batch : Nat) : List Message :=
  ((msgs.enum).filter
      (fun p => decide (cursor.created_at < p.2.created_at ∧ p.1 < batch))).map Prod.snd

/-- Modelled from the spec (§4.4): with a set cursor, "return messages
strictly newer than the cursor, bounded to at most batch_size messages by
position within the filtered sequence".  Stated only to compare with
`codeSelection`. -/
def specSelection (msgs : List Message) (cursor : Message) (batch : Nat) : List Message :=
  (msgs.filter (fun m => decide (cursor.created_at < m.created_at))).take batch

/-- `Server.messages`: 404 when no chat has the requested name; otherwise
read the caller's cursor entry for the chat (a missing entry is a KeyError,
an unresolved caller an AttributeError on None); a set cursor selects per
`codeSelection` without advancing, an unset cursor takes the first batch and
advances the cursor to its last message when the batch is nonempty. -/
def messages (s : ServerState) (req : RequestSchema) : SResult :=
  match s.chats.find? (fun c => some c.name == dictGet req.params "chat_name") with
  | none => .ok (s, parse_response 404 (Js.obj [("error", Js.str "Chat not found")]))
  | some chat =>
    match resolveUser s req.token with
    | none => .error (.attributeError, s)
    | some suser =>
      match dictGet suser.2.last_chat_message_map chat.name with
      | none => .error (.keyError, s)
      | some (some userLastMessage) =>
        let msgs := codeSelection chat.messages userLastMessage s.msg_batch_size
        .ok (s, parse_response 200 (messagesPayload s.users msgs))
      | some none =>
        let msgs := chat.messages.take s.msg_batch_size
        match msgs.getLast? with
        | some lastMsg =>
          let users' := listModify s.users suser.1
            (fun u => { u with last_chat_message_map :=
                          dictInsert u.last_chat_message_map chat.name (some lastMsg) })
          let s' := { s with users := users' }
          .ok (s', parse_response 200 (messagesPayload s'.users msgs))
        | none => .ok (s, parse_response 200 (messagesPayload s.users msgs))

/-- The handlers registered in `Server.endpoint_map`, as route keys. -/
inductive Endpoint where
  | connectEp
  | sendEp
  | sendToEp
  | statusEp
  | messagesEp
deriving DecidableEq, Repr

/-- `Server.endpoint_map`. -/
def endpoint_map (key : String) : Option Endpoint :=
  if key == "POST/connect/" then some .connectEp
  else if key == "POST/send/" then some .sendEp
  else if key == "POST/send_to/" then some .sendToEp
  else if key == "GET/status/" then some .statusEp
  else if key == "GET/messages/" then some .messagesEp
  else none

/-- Python `str.split(sep)` for a one-character separator: splits at every
occurrence, keeping empty pieces (so `"".split(" ") == [""]`). -/
def splitCharAux (sep : Char) : List Char → List Char → List String
  | [], acc => [String.mk acc.reverse]
  | c :: rest, acc =>
    if c = sep then String.mk acc.reverse :: splitCharAux sep rest []
    else splitCharAux sep rest (c :: acc)

/-- Python `s.split(sep)` with a single-character separator. -/
def pySplit (s : String) (sep : Char) : List String := splitCharAux sep s.data []

/-- The whitespace characters Python `str.strip()` removes. -/
def isSpaceChar (c : Char) : Bool :=
  c = ' ' || c = '\t' || c = '\n' || c = '\r' || c = '\x0b' || c = '\x0c'

/-- Python `str.strip()`: drop whitespace from both ends. -/
def pyStrip (s : String) : String :=
  String.mk (((s.data.dropWhile isSpaceChar).reverse.dropWhile isSpaceChar).reverse)

/-- `re.match` of the one registered pattern, r"/chats/([^/]+)/messages/",
against the path: a prefix match binding the captured chat-name segment.
Since `[^/]+` cannot cross a slash, the greedy match is the maximal run of
non-slash characters after "/chats/", which must be nonempty and be
followed immediately by "/messages/". -/
def reMatchChats (path : String) : Option String :=
  let cs := path.data
  if List.isPrefixOf "/chats/".data cs then
    let rest := cs.drop 7
    let seg := rest.takeWhile (fun c => c ≠ '/')
    if seg.length > 0 && List.isPrefixOf "/messages/".data (rest.drop seg.length) then
      some (String.mk seg)
    else none
  else none

/-- `Server._parse_params`: only "GET/messages/" declares a pattern; a
pattern mismatch makes `match` None and `match.group(...)` raise
AttributeError.  Other keys yield no params. -/
def parse_params (path : String) (endpointKey : String) :
    Except PyError (List (String × String)) :=
  if endpointKey == "GET/messages/" then
    match reMatchChats path with
    | some seg => .ok [("chat_name", seg)]
    | none => .error .attributeError
  else .ok []

/-- `Server._get_target_endpoint`: split the (stripped) request line on
single spaces into exactly method, path and protocol (anything else is a
ValueError from tuple unpacking); the route key is the method plus the
second-to-last path segment (an IndexError when the path has no slash);
params are parsed only when the path has more than two segments. -/
def get_target_endpoint (line : String) :
    Except PyError (String × Option Endpoint × List (String × String)) :=
  match pySplit (pyStrip line) ' ' with
  | [method, path, _protocol] =>
    let pathParts := pySplit path '/'
    if pathParts.length < 2 then .error .indexError
    else
      let endpointKey := method ++ "/" ++ pathParts.getD (pathParts.length - 2) "" ++ "/"
      match (if pathParts.length > 2 then parse_params path endpointKey else .ok []) with
      | .error e => .error e
      | .ok params => .ok (method, endpoint_map endpointKey, params)
  | _ => .error .valueError

/-- One incoming request as `Server.handle_request` consumes it: the raw
request line, and the header and body dicts.  Header and JSON-body decoding
(`_parse_headers`, `_parse_request_body`) are modelled as already done;
their own failure modes are outside the routed-dispatch claims below. -/
structure WireRequest where
  line : String
  headers : List (String × String)
  body : List (String × String)

/-- `Server.handle_request` after reading: resolve the route (a missing
handler is the 404 "Endpoint not found" reply; a raised routing error
propagates and kills the connection), read Content-Length (as a
nonnegative integer) and the Authorization token, dispatch when the method
is GET or a body is present, else reply 400 "Invalid request". -/
def handle_request (s : ServerState) (wreq : WireRequest) (t : Nat) : SResult :=
  match get_target_endpoint wreq.line with
  | .error e => .error (e, s)
  | .ok (method, endpoint?, params) =>
    match endpoint? with
    | none => .ok (s, parse_response 404 (Js.obj [("error", Js.str "Endpoint not found")]))
    | some ep =>
      match ((dictGet wreq.headers "Content-Length").getD "0").toNat? with
      | none => .error (.valueError, s)
      | some contentLength =>
        let userToken? := dictGet wreq.headers "Authorization"
        if method == "GET" || contentLength != 0 then
          let request : RequestSchema :=
            { token := userToken?, data := wreq.body, params := params }
          match ep with
          | .connectEp => connect s request
          | .sendEp => send s request t
          | .sendToEp => send_to s request t
          | .statusEp => status s request
          | .messagesEp => messages s request
        else .ok (s, parse_response 400 (Js.obj [("error", Js.str "Invalid request")]))

/-- One chat evolved from another without touching existing messages: same
name, and the old message sequence is an initial segment of the new one. -/
def chatLe (c c' : Chat) : Prop :=
  c'.name = c.name ∧ ∃ tail, c'.messages = c.messages ++ tail

/-- The chat list evolved append-only: no chat removed, and the chat at
each existing position kept its name and its messages up to appending. -/
def chatsExtend (old new : List Chat) : Prop :=
  old.length ≤ new.length ∧
  ∀ i c c', old.get? i = some c → new.get? i = some c' → chatLe c c'

/-- Chat names are pairwise distinct. -/
def namesUnique (cs : List Chat) : Prop :=
  cs.Pairwise (fun a b => a.name ≠ b.name)

/-- How many entries of the main chat's member list carry a given login. -/
def mainMembershipCount (s : ServerState) (l : String) : Nat :=
  match s.chats with
  | [] => 0
  | c :: _ => (c.members.filter (fun uid => (s.users.getD uid noUser).login == l)).length

/-- A credentials-only connect request (no Authorization header), as the
client sends on first connect and on reconnect after a restart. -/
def aliceReq : RequestSchema :=
  { token := none, data := [("login", "alice"), ("password", "p1")], params := [] }

/-- The User record `connect` builds from `aliceReq`. -/
def aliceUser : User :=
  { login := "alice", password := "p1", last_chat_message_map := [(MAIN_CHAT_NAME, none)] }

/-- State after one credentials-only connect of alice on a fresh server. -/
def c1s1 : ServerState := outState (connect initServer aliceReq)

/-- State after a second credentials-only connect with the same data. -/
def c1s2 : ServerState := outState (connect c1s1 aliceReq)

/-- The chat `chats[0]` holds in `c1s1`. -/
def c1MainChat : Chat := { name := MAIN_CHAT_NAME, members := [0], messages := [] }

/-- A messages request for the main chat presenting alice's token. -/
def aliceMainReq : RequestSchema :=
  { token := some (get_data_hash aliceUser), data := [],
    params := [("chat_name", MAIN_CHAT_NAME)] }

/-- Fresh server with batch size 1, for the pagination counterexample. -/
def c2s0 : ServerState := initServerWith 1

/-- Batch-1 server after connecting alice. -/
def c2s1 : ServerState := outState (connect c2s0 aliceReq)

/-- A send request for alice with the given body. -/
def aliceSend (msg : String) : RequestSchema :=
  { token := some (get_data_hash aliceUser), data := [("message", msg)], params := [] }

/-- Batch-1 server after alice sends "hi1" at time 1. -/
def c2s2 : ServerState := outState (send c2s1 (aliceSend "hi1") 1)

/-- Batch-1 server after alice also sends "hi2" at time 2. -/
def c2s3 : ServerState := outState (send c2s2 (aliceSend "hi2") 2)

/-- Batch-1 server after alice's first poll of the main chat, which sets her
read cursor to the first message. -/
def c2s4 : ServerState := outState (messages c2s3 aliceMainReq)

/-- The first message of the main chat in `c2s3`/`c2s4` (alice's cursor). -/
def c2m1 : Message := { user := 0, text := some "hi1", created_at := 1 }

/-- The second message of the main chat in `c2s3`/`c2s4`. -/
def c2m2 : Message := { user := 0, text := some "hi2", created_at := 2 }

/-- A messages request for an existing chat with a token bound to no one. -/
def garbageMainReq : RequestSchema :=
  { token := some "garbage", data := [], params := [("chat_name", MAIN_CHAT_NAME)] }

/-- A wire request whose request line has two tokens instead of three. -/
def malformedWire : WireRequest := { line := "GET /x", headers := [], body := [] }

/-- A well-formed wire request whose route key is registered nowhere. -/
def unroutedWire : WireRequest := { line := "GET /nope/ HTTP/1.1", headers := [], body := [] }

/-- A wire request routed to GET/messages/ whose path does not match the
declared pattern r"/chats/([^/]+)/messages/". -/
def mismatchWire : WireRequest :=
  { line := "GET /foo/messages/ HTTP/1.1", headers := [], body := [] }

/-- Two distinct connected users for the pairwise-chat witness. -/
def bobUser : User :=
  { login := "bob", password := "p2", last_chat_message_map := [(MAIN_CHAT_NAME, none)] }

/-- A server with alice and bob connected and only the main chat. -/
def twoUserState : ServerState :=
  { users := [aliceUser, bobUser],
    connected_users := [(get_data_hash aliceUser, 0), (get_data_hash bobUser, 1)],
    chats := [{ name := MAIN_CHAT_NAME, members := [0, 1], messages := [] }],
    msg_batch_size := MSG_BATCH_SIZE }

/-! ### Helper lemmas about the container operations -/

theorem dictGet_dictInsert_self {α : Type} (d : List (String × α)) (k : String) (v : α) :
    dictGet (dictInsert d k v) k = some v := by
  induction d with
  | nil => simp [dictInsert, dictGet]
  | cons p rest ih =>
    by_cases h : p.1 == k
    · obtain ⟨pk, pv⟩ := p
      simp only [dictInsert]
      simp only at h
      rw [if_pos h]
      simp [dictGet]
    · obtain ⟨pk, pv⟩ := p
      simp only [dictInsert]
      simp only at h
      rw [if_neg h]
      simp only [dictGet]
      rw [if_neg h]
      exact ih

theorem listModify_get? {α : Type} (l : List α) (n : Nat) (f : α → α) (i : Nat) :
    (listModify l n f).get? i = if i = n then (l.get? i).map f else l.get? i := by
  induction l generalizing n i with
  | nil => simp [listModify]
  | cons a rest ih =>
    cases n with
    | zero =>
      cases i with
      | zero => simp [listModify]
      | succ j => simp [listModify]
    | succ m =>
      cases i with
      | zero => simp [listModify]
      | succ j => simpa [listModify] using ih m j

theorem get?_some_lt {α : Type} {l : List α} {i : Nat} {a : α}
    (h : l.get? i = some a) : i < l.length := by
  by_contra hge
  rw [List.get?_eq_none.mpr (Nat.le_of_not_lt hge)] at h
  exact Option.noConfusion h

theorem firstIdxWithName_some {cs : List Chat} {n : String} {i : Nat}
    (h : firstIdxWithName cs n = some i) :
    ∃ c, cs.get? i = some c ∧ c.name = n := by
  induction cs generalizing i with
  | nil => simp [firstIdxWithName] at h
  | cons c rest ih =>
    by_cases hc : c.name == n
    · simp only [firstIdxWithName, if_pos hc] at h
      cases h
      exact ⟨c, rfl, by simpa using hc⟩
    · simp only [firstIdxWithName, if_neg hc] at h
      match hrec : firstIdxWithName rest n with
      | none => rw [hrec] at h; simp at h
      | some j =>
        rw [hrec] at h
        simp only [Option.map_some'] at h
        obtain ⟨c', hg, hn⟩ := ih hrec
        refine ⟨c', ?_, hn⟩
        have hji : j + 1 = i := Option.some.inj h
        rw [← hji]
        simpa using hg

theorem firstIdxWithName_none {cs : List Chat} {n : String}
    (h : firstIdxWithName cs n = none) :
    ∀ c ∈ cs, c.name ≠ n := by
  induction cs with
  | nil => intro c hc; simp at hc
  | cons c rest ih =>
    by_cases hc : c.name == n
    · simp [firstIdxWithName, hc] at h
    · simp only [firstIdxWithName, if_neg hc] at h
      intro d hd
      rcases hd with _ | hd
      · simpa using hc
      · exact ih (by simpa using h) d (by assumption)

/-! ### Claim theorems -/

/-- C9: in `Server.messages` the chat-existence check precedes any
authentication step: whenever no stored chat carries the requested name,
the reply is 404 "Chat not found" whatever the Authorization token was —
absent, invalid or valid. -/
theorem c9_chat_check_precedes_auth (s : ServerState) (req : RequestSchema)
    (h : s.chats.find? (fun c => some c.name == dictGet req.params "chat_name") = none) :
    messages s req =
      .ok (s, parse_response 404 (Js.obj [("error", Js.str "Chat not found")])) := by
  unfold messages
  rw [h]

theorem c9_witness :
    messages initServer { token := none, data := [], params := [("chat_name", "nope")] } =
      .ok (initServer, parse_response 404 (Js.obj [("error", Js.str "Chat not found")])) :=
  c9_chat_check_precedes_auth initServer
    { token := none, data := [], params := [("chat_name", "nope")] } rfl

/-- C10: with a resolved caller and an existing chat, `Server.messages`
completes without raising exactly when the caller's read-cursor dict has an
entry for that chat name; with no entry the `last_chat_message_map[chat_name]`
lookup raises an unhandled KeyError instead of producing a response. -/
theorem c10_messages_total_iff_cursor_entry (s : ServerState) (req : RequestSchema)
    (suser : Nat × User) (c : Chat)
    (hu : resolveUser s req.token = some suser)
    (hc : s.chats.find? (fun ch => some ch.name == dictGet req.params "chat_name") = some c) :
    ((messages s req).isOk = true ↔
      (dictGet suser.2.last_chat_message_map c.name).isSome = true) ∧
    (dictGet suser.2.last_chat_message_map c.name = none →
      messages s req = .error (.keyError, s)) := by
  unfold messages
  simp only [hc, hu]
  rcases hcur : dictGet suser.2.last_chat_message_map c.name with _ | mm
  · simp [hcur, SResult.isOk]
  · rcases mm with _ | lastMsg
    · rcases hl : (c.messages.take s.msg_batch_size).getLast? with _ | lastM
      · simp [hcur, hl, SResult.isOk]
      · simp [hcur, hl, SResult.isOk]
    · simp [hcur, SResult.isOk]

theorem c10_witness :
    ((messages c1s1 aliceMainReq).isOk = true ↔
      (dictGet aliceUser.last_chat_message_map c1MainChat.name).isSome = true) ∧
    (dictGet aliceUser.last_chat_message_map c1MainChat.name = none →
      messages c1s1 aliceMainReq = .error (.keyError, c1s1)) :=
  c10_messages_total_iff_cursor_entry c1s1 aliceMainReq (0, aliceUser) c1MainChat rfl rfl

/-- C2 (amended): with a resolved caller, an existing chat and a set read
cursor, `Server.messages` returns exactly the messages of the chat that are
strictly newer than the cursor AND sit within the first `msg_batch_size`
positions of the full message sequence (`codeSelection` — the bound is by
position in the unfiltered list, not in the filtered one), and leaves the
whole state, the cursor included, unchanged. -/
theorem c2_cursor_set_selection (s : ServerState) (req : RequestSchema)
    (suser : Nat × User) (c : Chat) (lastMsg : Message)
    (hu : resolveUser s req.token = some suser)
    (hc : s.chats.find? (fun ch => some ch.name == dictGet req.params "chat_name") = some c)
    (hcur : dictGet suser.2.last_chat_message_map c.name = some (some lastMsg)) :
    messages s req =
      .ok (s, parse_response 200
        (messagesPayload s.users (codeSelection c.messages lastMsg s.msg_batch_size))) := by
  unfold messages
  simp only [hc, hu, hcur]

theorem c2_witness :
    messages c2s4 aliceMainReq =
      .ok (c2s4, parse_response 200
        (messagesPayload c2s4.users (codeSelection [c2m1, c2m2] c2m1 c2s4.msg_batch_size))) :=
  c2_cursor_set_selection c2s4 aliceMainReq (0, (c2s4.users.getD 0 noUser))
    { name := MAIN_CHAT_NAME, members := [0], messages := [c2m1, c2m2] } c2m1 rfl rfl rfl

/-- C2 counterexample: on a batch-1 server where alice's cursor for "main"
is the first of two messages, the call returns no messages at all, while
the claim ("strictly newer than the cursor, bounded by position within the
filtered sequence") demands the second message. -/
theorem c2_counterexample :
    messages c2s4 aliceMainReq =
      .ok (c2s4, parse_response 200 (messagesPayload c2s4.users [])) ∧
    dictGet (c2s4.users.getD 0 noUser).last_chat_message_map MAIN_CHAT_NAME =
      some (some c2m1) ∧
    (c2s4.chats.getD 0 { name := "", members := [], messages := [] }).messages =
      [c2m1, c2m2] ∧
    specSelection [c2m1, c2m2] c2m1 c2s4.msg_batch_size = [c2m2] ∧
    parse_response 200 (messagesPayload c2s4.users []) ≠
      parse_response 200 (messagesPayload c2s4.users [c2m2]) := by
  refine ⟨rfl, rfl, rfl, rfl, by decide⟩

/-- C3 (amended): an unresolvable token makes `send`, `send_to` and
`status` reply 401 "User not found" with the state untouched; `messages`
with an unresolvable token instead replies 404 "Chat not found" when the
named chat does not exist, and raises an unhandled AttributeError (killing
the connection, no response) when it does. -/
theorem c3_unresolvable_token (s : ServerState) (req : RequestSchema) (t : Nat)
    (h : resolveUser s req.token = none) :
    send s req t =
      .ok (s, parse_response 401 (Js.obj [("error", Js.str "User not found")])) ∧
    send_to s req t =
      .ok (s, parse_response 401 (Js.obj [("error", Js.str "User not found")])) ∧
    status s req =
      .ok (s, parse_response 401 (Js.obj [("error", Js.str "User not found")])) ∧
    (s.chats.find? (fun c => some c.name == dictGet req.params "chat_name") = none →
      messages s req =
        .ok (s, parse_response 404 (Js.obj [("error", Js.str "Chat not found")]))) ∧
    (∀ c, s.chats.find? (fun c0 => some c0.name == dictGet req.params "chat_name") = some c →
      messages s req = .error (.attributeError, s)) := by
  refine ⟨?_, ?_, ?_, ?_, ?_⟩
  · unfold send; simp only [h]
  · unfold send_to; simp only [h]
  · unfold status; simp only [h]
  · intro hc; unfold messages; simp only [hc]
  · intro c hc; unfold messages; simp only [hc, h]

theorem c3_witness :
    send initServer garbageMainReq 0 =
      .ok (initServer, parse_response 401 (Js.obj [("error", Js.str "User not found")])) ∧
    messages initServer garbageMainReq = .error (.attributeError, initServer) :=
  ⟨(c3_unresolvable_token initServer garbageMainReq 0 rfl).1,
   (c3_unresolvable_token initServer garbageMainReq 0 rfl).2.2.2.2
     { name := MAIN_CHAT_NAME, members := [], messages := [] } rfl⟩

/-- C3 counterexample: a messages request for the existing main chat with a
token bound to no session raises (AttributeError on None) instead of
producing any error response — the call does not complete. -/
theorem c3_counterexample :
    messages initServer garbageMainReq = .error (.attributeError, initServer) ∧
    (messages initServer garbageMainReq).isOk = false := ⟨rfl, rfl⟩

theorem codeSelection_length_le (msgs : List Message) (cursor : Message) (batch : Nat) :
    (codeSelection msgs cursor batch).length ≤ batch := by
  have aux : ∀ (l : List Message) (i : Nat),
      (((List.enumFrom i l).filter
        (fun p => decide (cursor.created_at < p.2.created_at ∧ p.1 < batch))).map
          Prod.snd).length ≤ batch - i := by
    intro l
    induction l with
    | nil => intro i; simp
    | cons a tl ih =>
      intro i
      simp only [List.enumFrom, List.filter_cons]
      by_cases hk : (cursor.created_at < a.created_at ∧ i < batch)
      · have hi : i < batch := hk.2
        rw [if_pos (by simpa using hk)]
        have := ih (i + 1)
        simp only [List.map_cons, List.length_cons]
        omega
      · rw [if_neg (by simpa using hk)]
        have := ih (i + 1)
        omega
  have h0 := aux msgs 0
  simpa [codeSelection, List.enum] using h0

/-- C4: a single `Server.messages` call that completes never returns more
than `msg_batch_size` message records — in the unset-cursor branch (a take)
and in the set-cursor branch (every kept message sits at a position below
the batch size) alike; any successful reply is either the 404 or a 200
carrying at most that many records. -/
theorem c4_pagination_bound (s : ServerState) (req : RequestSchema)
    (s' : ServerState) (resp : String)
    (h : messages s req = .ok (s', resp)) :
    resp = parse_response 404 (Js.obj [("error", Js.str "Chat not found")]) ∨
    ∃ l : List Message, l.length ≤ s.msg_batch_size ∧
      resp = parse_response 200 (messagesPayload s'.users l) := by
  unfold messages at h
  rcases hc : s.chats.find? (fun c => some c.name == dictGet req.params "chat_name")
    with _ | c
  · simp only [hc] at h
    have hp := Except.ok.inj h
    exact Or.inl (congrArg Prod.snd hp).symm
  · simp only [hc] at h
    rcases hu : resolveUser s req.token with _ | suser
    · simp only [hu] at h
      exact absurd h (by simp)
    · simp only [hu] at h
      rcases hcur : dictGet suser.2.last_chat_message_map c.name with _ | mm
      · simp only [hcur] at h
        exact absurd h (by simp)
      · rcases mm with _ | lastMsg
        · simp only [hcur] at h
          rcases hl : (List.take s.msg_batch_size c.messages).getLast? with _ | lastM
          · simp only [hl] at h
            have hp := Except.ok.inj h
            injection hp with h1 h2
            subst h1
            subst h2
            refine Or.inr ⟨List.take s.msg_batch_size c.messages, ?_, rfl⟩
            simp
          · simp only [hl] at h
            have hp := Except.ok.inj h
            injection hp with h1 h2
            subst h1
            subst h2
            refine Or.inr ⟨List.take s.msg_batch_size c.messages, ?_, rfl⟩
            simp
        · simp only [hcur] at h
          have hp := Except.ok.inj h
          injection hp with h1 h2
          subst h1
          subst h2
          exact Or.inr ⟨codeSelection c.messages lastMsg s.msg_batch_size,
            codeSelection_length_le c.messages lastMsg s.msg_batch_size, rfl⟩

/-- C1 (amended): two credentials-only connects with the same body return
the same token response, the session dict afterwards binds that token to the
single newest user, but the main chat's member list has been appended to a
SECOND time (a duplicate membership entry), so connect is not idempotent
without the token header; presenting an existing session token instead
echoes it and leaves the state entirely unchanged. -/
theorem c1_connect_resume_and_duplicate_membership (s : ServerState)
    (req : RequestSchema) (s₁ s₂ : ServerState) (r₁ r₂ : String)
    (hnone : req.token = none)
    (h1 : connect s req = .ok (s₁, r₁))
    (h2 : connect s₁ req = .ok (s₂, r₂)) :
    (r₁ = r₂ ∧
     ∃ u, userFromKwargs req.data = some u ∧
       r₁ = parse_response 200 (Js.obj [("token", Js.str (get_data_hash u))]) ∧
       dictGet s₂.connected_users (get_data_hash u) = some s₁.users.length ∧
       ∃ c₁ rest₁ c₂ rest₂, s₁.chats = c₁ :: rest₁ ∧ s₂.chats = c₂ :: rest₂ ∧
         rest₂ = rest₁ ∧ c₂.members = c₁.members ++ [s₁.users.length]) ∧
    (∀ s₀ tok uid u, resolveUser s₀ (some tok) = some (uid, u) →
      connect s₀ { req with token := some tok } =
        .ok (s₀, parse_response 200 (Js.obj [("token", Js.str tok)]))) := by
  constructor
  · unfold connect at h1 h2
    rw [hnone] at h1
    simp only [resolveUser] at h1
    rcases hk : userFromKwargs req.data with _ | u
    · rw [hk] at h1
      exact absurd h1 (by simp)
    · rw [hk] at h1
      rcases hch : s.chats with _ | ⟨c₁, rest₁⟩
      · rw [hch] at h1
        exact absurd h1 (by simp)
      · rw [hch] at h1
        have hp1 := Except.ok.inj h1
        injection hp1 with hs1 hr1
        have hs1chats : s₁.chats =
            { c₁ with members := c₁.members ++ [s.users.length] } :: rest₁ := by
          rw [← hs1]
        have hs1users : s₁.users = s.users ++ [u] := by
          rw [← hs1]
        rw [hnone] at h2
        simp only [resolveUser] at h2
        rw [hk] at h2
        rw [hs1chats] at h2
        have hp2 := Except.ok.inj h2
        injection hp2 with hs2 hr2
        refine ⟨by rw [← hr1, ← hr2], u, rfl, by rw [← hr1], ?_, ?_⟩
        · rw [← hs2]
          exact dictGet_dictInsert_self _ _ _
        · refine ⟨{ c₁ with members := c₁.members ++ [s.users.length] }, rest₁,
            { c₁ with members :=
                (c₁.members ++ [s.users.length]) ++ [s₁.users.length] }, rest₁,
            hs1chats, ?_, rfl, rfl⟩
          rw [← hs2]
  · intro s₀ tok uid u hres
    unfold connect
    have : resolveUser s₀ (some tok) = some (uid, u) := hres
    simp only [this]
    rfl

theorem c1_witness :
    dictGet c1s2.connected_users (get_data_hash aliceUser) = some c1s1.users.length ∧
    connect c1s1 { aliceReq with token := some (get_data_hash aliceUser) } =
      .ok (c1s1, parse_response 200 (Js.obj [("token", Js.str (get_data_hash aliceUser))])) := by
  have h := c1_connect_resume_and_duplicate_membership initServer aliceReq
    c1s1 c1s2
    (parse_response 200 (Js.obj [("token", Js.str (get_data_hash aliceUser))]))
    (parse_response 200 (Js.obj [("token", Js.str (get_data_hash aliceUser))]))
    rfl rfl rfl
  refine ⟨?_, ?_⟩
  · obtain ⟨_, u, hu, _, hdict, _⟩ := h.1
    have : u = aliceUser := by
      have := hu
      simp [userFromKwargs, aliceReq, aliceUser, dictGet, MAIN_CHAT_NAME] at this
      exact this.symm
    rw [this] at hdict
    exact hdict
  · exact h.2 c1s1 (get_data_hash aliceUser) 0 aliceUser rfl

/-- C1 counterexample: connecting twice with the same credentials and no
Authorization header (the client's behavior on any reconnect after a
restart) yields the same token both times, yet afterwards the main chat
holds TWO membership entries for alice, not one. -/
theorem c1_counterexample :
    respOf (connect initServer aliceReq) =
      some (parse_response 200 (Js.obj [("token", Js.str "alicep1")])) ∧
    respOf (connect c1s1 aliceReq) =
      some (parse_response 200 (Js.obj [("token", Js.str "alicep1")])) ∧
    mainMembershipCount c1s2 "alice" = 2 ∧
    mainMembershipCount c1s2 "alice" ≠ 1 := by
  refine ⟨rfl, rfl, rfl, by decide⟩

theorem pairChatName_comm (a b : User) : pairChatName a b = pairChatName b a := by
  unfold pairChatName
  rcases lt_trichotomy a.login b.login with hab | hab | hab
  · rw [if_neg (by exact lt_asymm hab), if_pos hab]
  · rw [if_neg (by rw [hab]; exact lt_irrefl _), if_neg (by rw [hab]; exact lt_irrefl _)]
    simp [String.intercalate, hab]
  · rw [if_pos hab, if_neg (lt_asymm hab)]

/-- C5: pairwise chat resolution is commutative: the canonical chat name is
symmetric in the two users (logins sorted lexicographically, joined by "+"),
both call orders of `_get_or_create_chat` land on a chat of exactly that
name, name-uniqueness of the chat list is preserved (so at most one pairwise
chat ever exists for an unordered pair of logins), and when the chat already
exists both call orders return the very same chat of the unchanged state. -/
theorem c5_pairwise_chat_commutative (s : ServerState)
    (aUid bUid : Nat) (aU bU : User) :
    pairChatName aU bU = pairChatName bU aU ∧
    (∃ c, (get_or_create_chat s aUid aU bUid bU).1.chats.get?
        (get_or_create_chat s aUid aU bUid bU).2 = some c ∧
      c.name = pairChatName aU bU) ∧
    (∃ c, (get_or_create_chat s bUid bU aUid aU).1.chats.get?
        (get_or_create_chat s bUid bU aUid aU).2 = some c ∧
      c.name = pairChatName aU bU) ∧
    (namesUnique s.chats → namesUnique (get_or_create_chat s aUid aU bUid bU).1.chats) ∧
    (∀ i, firstIdxWithName s.chats (pairChatName aU bU) = some i →
      get_or_create_chat s aUid aU bUid bU = (s, i) ∧
      get_or_create_chat s bUid bU aUid aU = (s, i)) := by
  have hcomm : pairChatName aU bU = pairChatName bU aU := pairChatName_comm aU bU
  have hland : ∀ (xUid yUid : Nat) (xU yU : User),
      pairChatName xU yU = pairChatName aU bU →
      ∃ c, (get_or_create_chat s xUid xU yUid yU).1.chats.get?
          (get_or_create_chat s xUid xU yUid yU).2 = some c ∧
        c.name = pairChatName aU bU := by
    intro xUid yUid xU yU hname
    unfold get_or_create_chat
    rw [hname]
    rcases hidx : firstIdxWithName s.chats (pairChatName aU bU) with _ | i
    · simp only [hidx]
      refine ⟨{ name := pairChatName aU bU, members := [xUid, yUid], messages := [] },
        ?_, rfl⟩
      simp
    · simp only [hidx]
      obtain ⟨c, hg, hn⟩ := firstIdxWithName_some hidx
      exact ⟨c, hg, hn⟩
  refine ⟨hcomm, hland aUid bUid aU bU rfl, hland bUid aUid bU aU hcomm.symm, ?_, ?_⟩
  · intro huniq
    unfold get_or_create_chat
    rcases hidx : firstIdxWithName s.chats (pairChatName aU bU) with _ | i
    · have hfresh := firstIdxWithName_none hidx
      simp only [hidx, namesUnique] at huniq ⊢
      rw [List.pairwise_append]
      exact ⟨huniq, by simp, by intro x hx y hy; simp at hy; rw [hy]; exact hfresh x hx⟩
    · simp only [hidx]
      exact huniq
  · intro i hidx
    constructor
    · unfold get_or_create_chat
      simp only [hidx]
    · unfold get_or_create_chat
      rw [← hcomm]
      simp only [hidx]

theorem c5_witness :
    pairChatName aliceUser bobUser = pairChatName bobUser aliceUser ∧
    namesUnique (get_or_create_chat twoUserState 0 aliceUser 1 bobUser).1.chats := by
  have h := c5_pairwise_chat_commutative twoUserState 0 1 aliceUser bobUser
  refine ⟨h.1, h.2.2.2.1 ?_⟩
  simp [namesUnique, twoUserState]

/-- C6 (amended): a request line that parses into three tokens but whose
(method, path) key is registered to no handler is answered 404
"Endpoint not found" without invoking any handler; a request line that does
NOT split into exactly three space-separated tokens instead raises an
unhandled ValueError from tuple unpacking, killing the connection with no
response. -/
theorem c6_unrouted_404_malformed_crash (s : ServerState) (wreq : WireRequest) (t : Nat) :
    (∀ m ps, get_target_endpoint wreq.line = .ok (m, none, ps) →
      handle_request s wreq t =
        .ok (s, parse_response 404 (Js.obj [("error", Js.str "Endpoint not found")]))) ∧
    ((pySplit (pyStrip wreq.line) ' ').length ≠ 3 →
      handle_request s wreq t = .error (.valueError, s)) := by
  constructor
  · intro m ps h
    unfold handle_request
    simp only [h]
  · intro hlen
    unfold handle_request get_target_endpoint
    rcases hsp : pySplit (pyStrip wreq.line) ' ' with _ | ⟨a, _ | ⟨b, _ | ⟨c, _ | ⟨d, r⟩⟩⟩⟩
    · simp only [hsp]
    · simp only [hsp]
    · simp only [hsp]
    · exact absurd (by rw [hsp]; rfl : (pySplit (pyStrip wreq.line) ' ').length = 3) hlen
    · simp only [hsp]

theorem c6_witness :
    handle_request initServer unroutedWire 0 =
      .ok (initServer, parse_response 404 (Js.obj [("error", Js.str "Endpoint not found")])) ∧
    handle_request initServer malformedWire 0 = .error (.valueError, initServer) :=
  ⟨(c6_unrouted_404_malformed_crash initServer unroutedWire 0).1 "GET" [] rfl,
   (c6_unrouted_404_malformed_crash initServer malformedWire 0).2 (by decide)⟩

/-- C6 counterexample: the malformed request line "GET /x" (two tokens) is
not answered with the 404 "Endpoint not found" response — the connection
handler raises instead of serializing anything. -/
theorem c6_counterexample :
    handle_request initServer malformedWire 0 = .error (.valueError, initServer) ∧
    (handle_request initServer malformedWire 0).isOk = false := ⟨rfl, rfl⟩

/-- C7 (amended): a GET request routed to the "GET/messages/" key whose full
path does not match r"/chats/([^/]+)/messages/" makes `_parse_params` call
`.group` on None: an unhandled AttributeError that kills the connection —
neither a 404 nor a 400 response is produced. -/
theorem c7_pattern_mismatch_crashes (s : ServerState) (wreq : WireRequest) (t : Nat)
    (path proto : String)
    (hsplit : pySplit (pyStrip wreq.line) ' ' = ["GET", path, proto])
    (hlen : (pySplit path '/').length > 2)
    (hseg : (pySplit path '/').getD ((pySplit path '/').length - 2) "" = "messages")
    (hre : reMatchChats path = none) :
    handle_request s wreq t = .error (.attributeError, s) := by
  unfold handle_request get_target_endpoint
  simp only [hsplit]
  rw [if_neg (by omega)]
  rw [hseg]
  rw [if_pos (by omega)]
  simp [parse_params, hre]

theorem c7_witness :
    handle_request initServer mismatchWire 0 = .error (.attributeError, initServer) :=
  c7_pattern_mismatch_crashes initServer mismatchWire 0 "/foo/messages/" "HTTP/1.1"
    rfl (by decide) rfl rfl

/-- C7 counterexample: the request "GET /foo/messages/ HTTP/1.1" reaches the
pattern of the messages route but does not match it; the outcome is an
unhandled AttributeError (a crashed connection), not a 404 response. -/
theorem c7_counterexample :
    handle_request initServer mismatchWire 0 = .error (.attributeError, initServer) ∧
    (handle_request initServer mismatchWire 0).isOk = false := ⟨rfl, rfl⟩

theorem chatLe_refl (c : Chat) : chatLe c c := ⟨rfl, [], by simp⟩

theorem chatsExtend_nil (l : List Chat) : chatsExtend [] l := by
  refine ⟨Nat.zero_le _, ?_⟩
  intro i x y hx
  simp at hx

theorem chatLe_append (c : Chat) (ms : List Message) :
    chatLe c { c with messages := c.messages ++ ms } := ⟨rfl, ms, rfl⟩

theorem chatsExtend_refl (l : List Chat) : chatsExtend l l := by
  refine ⟨le_refl _, ?_⟩
  intro i x y hx hy
  rw [hx] at hy
  exact (Option.some.inj hy) ▸ chatLe_refl x

theorem chatsExtend_cons (c c' : Chat) (h : chatLe c c') (r : List Chat) :
    chatsExtend (c :: r) (c' :: r) := by
  refine ⟨by simp, ?_⟩
  intro i x y hx hy
  cases i with
  | zero =>
    obtain rfl : c = x := Option.some.inj hx
    obtain rfl : c' = y := Option.some.inj hy
    exact h
  | succ j =>
    simp only [List.get?] at hx hy
    rw [hx] at hy
    exact (Option.some.inj hy) ▸ chatLe_refl x

theorem get?_append_left {α : Type} {l₁ : List α} (l₂ : List α) {i : Nat}
    (h : i < l₁.length) : (l₁ ++ l₂).get? i = l₁.get? i := by
  induction l₁ generalizing i with
  | nil => simp at h
  | cons a r ih =>
    cases i with
    | zero => rfl
    | succ j => simpa using ih (by simpa using h)

theorem chatsExtend_append (l t : List Chat) : chatsExtend l (l ++ t) := by
  refine ⟨by simp, ?_⟩
  intro i x y hx hy
  rw [get?_append_left t (get?_some_lt hx), hx] at hy
  exact (Option.some.inj hy) ▸ chatLe_refl x

theorem listModify_length {α : Type} (l : List α) (n : Nat) (f : α → α) :
    (listModify l n f).length = l.length := by
  induction l generalizing n with
  | nil => simp [listModify]
  | cons a r ih =>
    cases n with
    | zero => simp [listModify]
    | succ m => simp [listModify, ih]

theorem chatsExtend_listModify (l : List Chat) (n : Nat) (f : Chat → Chat)
    (hf : ∀ c, chatLe c (f c)) : chatsExtend l (listModify l n f) := by
  refine ⟨by rw [listModify_length], ?_⟩
  intro i x y hx hy
  rw [listModify_get?] at hy
  by_cases hin : i = n
  · rw [if_pos hin, hx] at hy
    simp only [Option.map_some'] at hy
    exact (Option.some.inj hy) ▸ hf x
  · rw [if_neg hin, hx] at hy
    exact (Option.some.inj hy) ▸ chatLe_refl x

theorem chatsExtend_trans {a b c : List Chat}
    (h1 : chatsExtend a b) (h2 : chatsExtend b c) : chatsExtend a c := by
  refine ⟨le_trans h1.1 h2.1, ?_⟩
  intro i x z hx hz
  have hib : i < b.length := lt_of_lt_of_le (get?_some_lt hx) h1.1
  rcases hb : b.get? i with _ | y
  · exact absurd (List.get?_eq_none.mp hb) (by omega)
  · have l1 := h1.2 i x y hx hb
    have l2 := h2.2 i y z hb hz
    obtain ⟨t1, e1⟩ := l1.2
    obtain ⟨t2, e2⟩ := l2.2
    exact ⟨l2.1.trans l1.1, t1 ++ t2, by rw [e2, e1, List.append_assoc]⟩

theorem get_or_create_chat_extends (s : ServerState) (a : Nat) (ua : User)
    (b : Nat) (ub : User) :
    chatsExtend s.chats (get_or_create_chat s a ua b ub).1.chats := by
  unfold get_or_create_chat
  rcases h : firstIdxWithName s.chats (pairChatName ua ub) with _ | i
  · simp only [h]
    exact chatsExtend_append _ _
  · simp only [h]
    exact chatsExtend_refl _

/-- C8: every handler — connect, send, send_to, status, messages — evolves
the chat list append-only, successful or raising alike: no chat is removed,
the chat at each existing position keeps its name, and its message sequence
is only ever extended by appending at the end (never reordered, shortened
or rewritten in place). -/
theorem c8_append_only (s : ServerState) (req : RequestSchema) (t : Nat) :
    chatsExtend s.chats (outState (connect s req)).chats ∧
    chatsExtend s.chats (outState (send s req t)).chats ∧
    chatsExtend s.chats (outState (send_to s req t)).chats ∧
    chatsExtend s.chats (outState (status s req)).chats ∧
    chatsExtend s.chats (outState (messages s req)).chats := by
  refine ⟨?_, ?_, ?_, ?_, ?_⟩
  · unfold connect
    rcases hru : resolveUser s req.token with _ | suser
    · simp only [hru]
      rcases hk : userFromKwargs req.data with _ | u
      · simp only [hk]
        exact chatsExtend_refl _
      · simp only [hk]
        rcases hch : s.chats with _ | ⟨c0, rest⟩
        · simp only [hch]
          exact chatsExtend_nil _
        · simp only [hch]
          exact chatsExtend_cons c0
            { c0 with members := c0.members ++ [s.users.length] }
            ⟨rfl, [], by simp⟩ rest
    · simp only [hru]
      exact chatsExtend_refl _
  · unfold send
    rcases hru : resolveUser s req.token with _ | suser
    · simp only [hru]
      exact chatsExtend_refl _
    · simp only [hru]
      rcases hch : s.chats with _ | ⟨c0, rest⟩
      · simp only [hch]
        exact chatsExtend_nil _
      · simp only [hch]
        exact chatsExtend_cons _ _ (chatLe_append c0 _) _
  · unfold send_to
    rcases hru : resolveUser s req.token with _ | suser
    · simp only [hru]
      exact chatsExtend_refl _
    · simp only [hru]
      rcases hfind : (s.connected_users.filterMap
          (fun p => (s.users.get? p.2).map (fun u => (p.2, u)))).find?
          (fun q => dictGet req.data "user_login" == some q.2.login) with _ | ruser
      · simp only [hfind]
        exact chatsExtend_refl _
      · simp only [hfind]
        exact chatsExtend_trans
          (get_or_create_chat_extends s suser.1 suser.2 ruser.1 ruser.2)
          (chatsExtend_listModify _ _ _ (fun c => chatLe_append c _))
  · unfold status
    rcases hru : resolveUser s req.token with _ | suser
    · simp only [hru]
      exact chatsExtend_refl _
    · simp only [hru]
      exact chatsExtend_refl _
  · unfold messages
    rcases hc : s.chats.find? (fun c => some c.name == dictGet req.params "chat_name")
      with _ | c
    · simp only [hc]
      exact chatsExtend_refl _
    · simp only [hc]
      rcases hru : resolveUser s req.token with _ | suser
      · simp only [hru]
        exact chatsExtend_refl _
      · simp only [hru]
        rcases hm : dictGet suser.2.last_chat_message_map c.name with _ | mm
        · simp only [hm]
          exact chatsExtend_refl _
        · rcases mm with _ | lastMsg
          · simp only [hm]
            rcases hl : (List.take s.msg_batch_size c.messages).getLast? with _ | lastM
            · simp only [hl]
              exact chatsExtend_refl _
            · simp only [hl]
              exact chatsExtend_refl _
          · simp only [hm]
            exact chatsExtend_refl _

theorem c8_witness :
    chatsExtend initServer.chats (outState (connect initServer aliceReq)).chats ∧
    chatsExtend c2s2.chats (outState (send c2s2 (aliceSend "hi2") 2)).chats :=
  ⟨(c8_append_only initServer aliceReq 0).1,
   (c8_append_only c2s2 (aliceSend "hi2") 2).2.1⟩

theorem c4_witness :
    parse_response 200 (messagesPayload c2s4.users []) =
      parse_response 404 (Js.obj [("error", Js.str "Chat not found")]) ∨
    ∃ l : List Message, l.length ≤ c2s4.msg_batch_size ∧
      parse_response 200 (messagesPayload c2s4.users []) =
        parse_response 200 (messagesPayload c2s4.users l) :=
  c4_pagination_bound c2s4 aliceMainReq c2s4
    (parse_response 200 (messagesPayload c2s4.users [])) rfl

end ChatServer
